import Mathlib

/-!
Verification of the branding-check validator (script/branding-check.py).

The script is embedded shallowly:
  * Python/JSON values become the inductive type `PyVal` (JSON null is
    Python `None`, which is also the not-found sentinel of `get_by_path`).
  * The filesystem is a parameter `isfile : String → Bool` giving, for an
    absolute path, whether a regular file exists there (os.path.isfile).
  * Reading and parsing `{env}.json` is a parameter
    `parse : String → Except String PyVal`; an `Except.error` covers any
    exception raised inside `load_json` (the message is the formatted
    exception text).
  * Whitespace stripping and upper-casing are modelled for the ASCII
    character set, which covers every string the script manipulates.
All constants, messages and control flow are translated 1:1 from the
source; definitions keep the source names.
-/

/-- Python values as produced by json.load: null/None, bool, number,
string, list, dict (association list of string keys, first key wins). -/
inductive PyVal where
  | none
  | bool (b : Bool)
  | num (n : Int)
  | str (s : String)
  | list (l : List PyVal)
  | dict (d : List (String × PyVal))

/-- Python `v is None` identity test (line 128 of the script). -/
def pyIsNone : PyVal → Bool
  | PyVal.none => true
  | _ => false

/-- Characters removed by Python str.strip() (ASCII whitespace). -/
def isSpaceChar (c : Char) : Bool :=
  c == ' ' || c == '\t' || c == '\n' || c == '\r' || c == '\x0b' || c == '\x0c'

/-- Python str.strip(): remove leading and trailing whitespace. -/
def pyStrip (s : String) : String :=
  String.mk (((s.data.dropWhile isSpaceChar).reverse.dropWhile isSpaceChar).reverse)

/-- Python str.upper() on ASCII strings. -/
def pyUpper (s : String) : String :=
  String.mk (s.data.map Char.toUpper)

/-- One hexadecimal digit, case-insensitive: [0-9A-Fa-f]. -/
def hexDigitChar (c : Char) : Bool :=
  ('0' ≤ c && c ≤ '9') || ('a' ≤ c && c ≤ 'f') || ('A' ≤ c && c ≤ 'F')

/-- Exactly six hexadecimal digits. -/
def hexColorBody (l : List Char) : Bool :=
  l.length == 6 && l.all hexDigitChar

/-- Python `HEX_COLOR_RE.match(s)` succeeding, for
`HEX_COLOR_RE = re.compile(r"^#[0-9A-Fa-f]\x7b6\x7d$")` (line 9).
In Python `$` also matches just before a newline that ends the string,
so the raw regex accepts both `#hhhhhh` and `#hhhhhh\n`. -/
def HEX_COLOR_RE_match (s : String) : Bool :=
  match s.data with
  | c :: rest =>
      c == '#' &&
      (hexColorBody rest ||
       (rest.length == 7 && hexColorBody (rest.dropLast) && rest.getLast? == some '\n'))
  | [] => false

/-- Modelled from the spec wording of 4.3: the string is `#` followed by
exactly 6 hexadecimal digits (case-insensitive), nothing else. Used to
compare the regex of the source against the spec sentence. -/
def specHexColor (s : String) : Bool :=
  match s.data with
  | c :: rest => c == '#' && rest.length == 6 && rest.all hexDigitChar
  | [] => false

/-- REQUIRED_JSON_PATHS (lines 11-37 of the script). -/
def REQUIRED_JSON_PATHS : List String :=
  [r"identifiers.androidBundleId",
   r"identifiers.iosBundleId",
   r"identifiers.webAppDomain",
   r"identifiers.deepLinkScheme",
   r"api.apiBaseUrl",
   r"api.apiVersion",
   r"api.websocketUrl",
   r"api.cdnBaseUrl",
   r"api.imageBaseUrl",
   r"branding.appName",
   r"branding.companyName",
   r"branding.primaryColor",
   r"branding.accentColor",
   r"branding.logoUrl",
   r"branding.logoDarkUrl",
   r"branding.supportEmail",
   r"branding.supportUrl",
   r"branding.privacyPolicyUrl",
   r"branding.termsUrl",
   r"stores.iosAppStoreId",
   r"stores.androidPlayStoreId"]

/-- REQUIRED_FILES_BY_ENV (lines 40-74 of the script): path templates
with a `{env}` placeholder. -/
def REQUIRED_FILES_BY_ENV : List String :=
  [r"{env}.json",
   r"asset/{env}/appicon/Assets.xcassets/AppIcon.appiconset/Contents.json",
   r"asset/{env}/appicon/Assets.xcassets/AppIcon.appiconset/29.png",
   r"asset/{env}/appicon/Assets.xcassets/AppIcon.appiconset/40.png",
   r"asset/{env}/appicon/Assets.xcassets/AppIcon.appiconset/57.png",
   r"asset/{env}/appicon/Assets.xcassets/AppIcon.appiconset/58.png",
   r"asset/{env}/appicon/Assets.xcassets/AppIcon.appiconset/60.png",
   r"asset/{env}/appicon/Assets.xcassets/AppIcon.appiconset/80.png",
   r"asset/{env}/appicon/Assets.xcassets/AppIcon.appiconset/87.png",
   r"asset/{env}/appicon/Assets.xcassets/AppIcon.appiconset/1024.png",
   r"asset/{env}/appicon/Assets.xcassets/AppIcon.appiconset/114.png",
   r"asset/{env}/appicon/Assets.xcassets/AppIcon.appiconset/120.png",
   r"asset/{env}/appicon/Assets.xcassets/AppIcon.appiconset/180.png",
   r"asset/{env}/appicon/appstore.png",
   r"asset/{env}/appicon/playstore.png",
   r"asset/{env}/appicon/android/mipmap-mdpi/ic_launcher.png",
   r"asset/{env}/appicon/android/mipmap-hdpi/ic_launcher.png",
   r"asset/{env}/appicon/android/mipmap-xhdpi/ic_launcher.png",
   r"asset/{env}/appicon/android/mipmap-xxhdpi/ic_launcher.png",
   r"asset/{env}/appicon/android/mipmap-xxxhdpi/ic_launcher.png",
   r"asset/{env}/fonts/brand.ttf",
   r"asset/{env}/splashscreen/splashscreen.png"]

/-- Python str.format with the single keyword argument env: replace every
occurrence of the placeholder `{env}` in the template. -/
def fmtEnvAux (env : String) : List Char → List Char
  | '\x7b' :: 'e' :: 'n' :: 'v' :: '\x7d' :: rest => env.data ++ fmtEnvAux env rest
  | c :: rest => c :: fmtEnvAux env rest
  | [] => []

/-- `template.format(env=env)` for the templates of REQUIRED_FILES_BY_ENV. -/
def fmtEnv (template env : String) : String :=
  String.mk (fmtEnvAux env template.data)

/-- os.path.join for the shapes used by the script (second component a
relative path, or an absolute override). -/
def osJoin (a b : String) : String :=
  if b.data.head? = some '/' then b
  else if a.data = [] ∨ a.data.getLast? = some '/' then a ++ b
  else a ++ (r"/") ++ b

/-- Association-list lookup for dict keys (`part in cur` / `cur[part]`). -/
def dictGet : List (String × PyVal) → String → Option PyVal
  | [], _ => Option.none
  | (k, v) :: rest, key => if k = key then some v else dictGet rest key

/-- Python `dotted.split(".")`. -/
def splitDotAux : List Char → List Char → List String
  | [], acc => [String.mk acc.reverse]
  | c :: cs, acc =>
      if c = '.' then String.mk acc.reverse :: splitDotAux cs []
      else splitDotAux cs (c :: acc)

/-- Python `dotted.split(".")` on a string. -/
def splitDot (dotted : String) : List String :=
  splitDotAux dotted.data []

/-- The loop body of get_by_path (lines 84-89): walk the segments, turning
a missing key or a non-dict intermediate value into the None sentinel. -/
def get_by_path_go : PyVal → List String → PyVal
  | cur, [] => cur
  | cur, part :: rest =>
      match cur with
      | PyVal.dict d =>
          match dictGet d part with
          | some v => get_by_path_go v rest
          | Option.none => PyVal.none
      | _ => PyVal.none

/-- get_by_path (lines 83-89 of the script). -/
def get_by_path (obj : PyVal) (dotted : String) : PyVal :=
  get_by_path_go obj (splitDot dotted)

/-- Modelled from the spec wording of 4.1: return (some of) the value at
the dot-separated path, or a not-found outcome if any intermediate
segment is absent or the current value is not a mapping. Kept distinct
from the not-found sentinel, so that a stored JSON null is `some
PyVal.none` while an absent key is `Option.none`. -/
def lookupSegs : PyVal → List String → Option PyVal
  | v, [] => some v
  | PyVal.dict d, seg :: rest =>
      match dictGet d seg with
      | some v => lookupSegs v rest
      | Option.none => Option.none
  | _, _ :: _ => Option.none

/-- is_non_empty_value (lines 91-99 of the script). -/
def is_non_empty_value : PyVal → Bool
  | PyVal.none => false
  | PyVal.str s => !(pyStrip s == (r""))
  | PyVal.list l => decide (l.length > 0)
  | PyVal.dict d => decide (d.length > 0)
  | _ => true

/-- check_required_files (lines 101-108 of the script): keep, in order,
the substituted relative paths whose joined absolute path is not a file. -/
def check_required_files (isfile : String → Bool) (repo_root env : String) : List String :=
  (REQUIRED_FILES_BY_ENV.map (fun rel => fmtEnv rel env)).filter
    (fun rel_path => !(isfile (osJoin repo_root rel_path)))

/-- Python repr for the str values interpolated with !r in the issue
messages (modelled for strings without quotes or escape characters). -/
def pyReprStr (s : String) : String :=
  "\x27" ++ s ++ "\x27"

/-- The message `f"Missing key: {p}"` (line 129). -/
def mkMissingMsg (p : String) : String :=
  (r"Missing key: ") ++ p

/-- The message `f"Empty value: {p}"` (line 131). -/
def mkEmptyMsg (p : String) : String :=
  (r"Empty value: ") ++ p

/-- The key loop of check_json (lines 126-131), for one path. -/
def keyIssue (data : PyVal) (p : String) : List String :=
  let v := get_by_path data p
  if pyIsNone v then [mkMissingMsg p]
  else if !(is_non_empty_value v) then [mkEmptyMsg p]
  else []

/-- All issues of the key loop of check_json (lines 126-131), in order. -/
def keyIssues (data : PyVal) : List String :=
  REQUIRED_JSON_PATHS.flatMap (keyIssue data)

/-- The message `f"Invalid color {field} (expected #RRGGBB): {value!r}"`
(lines 137 and 139). -/
def colorMsg (field s : String) : String :=
  (r"Invalid color ") ++ field ++ (r" (expected #RRGGBB): ") ++ pyReprStr s

/-- One color check of check_json (lines 136-139): strings failing the
regex after strip produce one issue, everything else none. -/
def colorIssue (data : PyVal) (field : String) : List String :=
  match get_by_path data field with
  | PyVal.str s =>
      if HEX_COLOR_RE_match (pyStrip s) then [] else [colorMsg field s]
  | _ => []

/-- Both color checks of check_json (lines 134-139), in order. -/
def colorIssues (data : PyVal) : List String :=
  colorIssue data (r"branding.primaryColor") ++ colorIssue data (r"branding.accentColor")

/-- One logo cross-reference check (lines 146-156): for a string value
with non-empty strip, resolve it under asset/{env}/images/ and report if
the file is missing. -/
def logoIssue (isfile : String → Bool) (repo_root env : String) (data : PyVal)
    (key : String) : List String :=
  match get_by_path data key with
  | PyVal.str s =>
      if pyStrip s == (r"") then []
      else
        let assumed := (r"asset/") ++ env ++ (r"/images/") ++ pyStrip s
        if isfile (osJoin repo_root assumed) then []
        else [key ++ (r" points to ") ++ pyReprStr s ++ (r", but missing file at: ") ++ assumed]
  | _ => []

/-- The flag-gated logo block of check_json (lines 141-156), in order. -/
def logoIssues (isfile : String → Bool) (repo_root env : String) (chk_logo : Bool)
    (data : PyVal) : List String :=
  if chk_logo then
    logoIssue isfile repo_root env data (r"branding.logoUrl") ++
    logoIssue isfile repo_root env data (r"branding.logoDarkUrl")
  else []

/-- check_json (lines 110-158 of the script). A missing config file or a
parse failure short-circuits with a single issue; otherwise the key,
color and logo issues are accumulated in source order. -/
def check_json (isfile : String → Bool) (parse : String → Except String PyVal)
    (repo_root env : String) (chk_logo : Bool) : List String :=
  let json_rel := env ++ (r".json")
  let json_path := osJoin repo_root json_rel
  if !(isfile json_path) then
    [(r"Missing JSON: ") ++ json_rel]
  else
    match parse json_path with
    | Except.error ex => [(r"Invalid JSON (") ++ json_rel ++ (r"): ") ++ ex]
    | Except.ok data =>
        keyIssues data ++ colorIssues data ++ logoIssues isfile repo_root env chk_logo data

/-- The success line `f"✅ {env}: OK"` printed to stdout (line 185). -/
def okLine (env : String) : String :=
  "✅ " ++ env ++ ": OK"

/-- The failure block appended to all_errors for one failing environment
(lines 177-183): header, then the indented missing files, then the
indented JSON issues. -/
def failBlock (env : String) (missing_files json_issues : List String) : List String :=
  let hdr := "\n=== " ++ pyUpper env ++ " CHECK FAILED ==="
  hdr ::
    ((if missing_files.isEmpty then [] else
        (r"Missing required files:") :: missing_files.map (fun pth => (r"  - ") ++ pth)) ++
     (if json_issues.isEmpty then [] else
        (r"JSON issues:") :: json_issues.map (fun x => (r"  - ") ++ x)))

/-- One iteration of the environment loop of main (lines 172-185). The
accumulator pairs the stdout lines printed so far with all_errors. -/
def main_step (isfile : String → Bool) (parse : String → Except String PyVal)
    (repo_root : String) (chk_logo : Bool)
    (acc : List String × List String) (env : String) : List String × List String :=
  let missing_files := check_required_files isfile repo_root env
  let json_issues := check_json isfile parse repo_root env chk_logo
  if !missing_files.isEmpty || !json_issues.isEmpty then
    (acc.1, acc.2 ++ failBlock env missing_files json_issues)
  else
    (acc.1 ++ [okLine env], acc.2)

/-- Whether one environment passes: both lists empty (line 176 negated). -/
def envPasses (isfile : String → Bool) (parse : String → Except String PyVal)
    (repo_root : String) (chk_logo : Bool) (env : String) : Bool :=
  (check_required_files isfile repo_root env).isEmpty &&
  (check_json isfile parse repo_root env chk_logo).isEmpty

/-- The --env argument (line 163). -/
inductive EnvChoice where
  | production
  | staging
  | both

/-- The envs list of main (line 169). -/
def selectedEnvs : EnvChoice → List String
  | EnvChoice.production => [r"production"]
  | EnvChoice.staging => [r"staging"]
  | EnvChoice.both => [r"production", r"staging"]

/-- Observable outcome of main: stdout lines, the all_errors lines
written to stderr, and the return value used as the process exit code. -/
structure MainResult where
  stdout_lines : List String
  stderr_lines : List String
  exit_code : Nat

/-- main (lines 160-191), after argument parsing; repo_root is the
already-absolutised --repo-root. -/
def runMain (isfile : String → Bool) (parse : String → Except String PyVal)
    (repo_root : String) (choice : EnvChoice) (chk_logo : Bool) : MainResult :=
  let res := (selectedEnvs choice).foldl (main_step isfile parse repo_root chk_logo) ([], [])
  ⟨res.1, res.2, if res.2.isEmpty then 0 else 1⟩

/-- The fixed text of a color issue up to the interpolated value. -/
def fixedColor (field : String) : String :=
  (r"Invalid color ") ++ field ++ (r" (expected #RRGGBB): ")

/-- Recognises the color-format issues of one field: the issue text
starts with `Invalid color <field>`. -/
def colorIssueFor (field msg : String) : Bool :=
  List.isPrefixOf ((r"Invalid color ") ++ field).data msg.data

/-- Modelled from the spec wording of 4.3 and 8.2: the color-format
issues one field should produce from its resolved value — none for a
string whose trimmed form is `#` plus 6 hex digits, exactly one naming
the field and the value for any other string, none for non-strings. -/
def specColorIssue (field : String) (v : PyVal) : List String :=
  match v with
  | PyVal.str s => if specHexColor (pyStrip s) then [] else [colorMsg field s]
  | _ => []

/-- Modelled from the spec wording: a color field value that is valid
(strings must trim to `#` plus 6 hex digits; non-strings are not format
checked). -/
def colorValueOK : PyVal → Bool
  | PyVal.str s => specHexColor (pyStrip s)
  | _ => true

/-- A fully populated, valid branding config used as concrete input. -/
def goodConfig : PyVal := PyVal.dict
  [(r"identifiers", PyVal.dict
     [(r"androidBundleId", PyVal.str (r"com.example.app")),
      (r"iosBundleId", PyVal.str (r"com.example.ios")),
      (r"webAppDomain", PyVal.str (r"example.com")),
      (r"deepLinkScheme", PyVal.str (r"exampleapp"))]),
   (r"api", PyVal.dict
     [(r"apiBaseUrl", PyVal.str (r"https://api.example.com")),
      (r"apiVersion", PyVal.str (r"v1")),
      (r"websocketUrl", PyVal.str (r"wss://ws.example.com")),
      (r"cdnBaseUrl", PyVal.str (r"https://cdn.example.com")),
      (r"imageBaseUrl", PyVal.str (r"https://img.example.com"))]),
   (r"branding", PyVal.dict
     [(r"appName", PyVal.str (r"Example")),
      (r"companyName", PyVal.str (r"Example Inc")),
      (r"primaryColor", PyVal.str (r"#A1B2C3")),
      (r"accentColor", PyVal.str (r"#00ff00")),
      (r"logoUrl", PyVal.str (r"logo.png")),
      (r"logoDarkUrl", PyVal.str (r"logo-dark.png")),
      (r"supportEmail", PyVal.str (r"help@example.com")),
      (r"supportUrl", PyVal.str (r"https://example.com/support")),
      (r"privacyPolicyUrl", PyVal.str (r"https://example.com/privacy")),
      (r"termsUrl", PyVal.str (r"https://example.com/terms"))]),
   (r"stores", PyVal.dict
     [(r"iosAppStoreId", PyVal.str (r"123456789")),
      (r"androidPlayStoreId", PyVal.str (r"com.example.app"))])]

/-- A config whose only content is an invalid primary color. -/
def badColorConfig : PyVal := PyVal.dict
  [(r"branding", PyVal.dict [(r"primaryColor", PyVal.str (r"#ZZZZZZ"))])]

/-- A config in which branding.appName is JSON null. -/
def nullKeyConfig : PyVal := PyVal.dict
  [(r"branding", PyVal.dict [(r"appName", PyVal.none)])]

/-- Concrete repo root for the witnesses. -/
def cwRoot : String := r"/repo"

/-- Filesystem in which every path is a regular file. -/
def cwFsAll : String → Bool := fun _ => true

/-- Filesystem with no files at all. -/
def cwFsNone : String → Bool := fun _ => false

/-- Filesystem in which everything exists except staging.json. -/
def cwFsNoStaging : String → Bool := fun pth => !(pth == (r"/repo/staging.json"))

/-- Parser returning the valid config for every path. -/
def cwParseGood : String → Except String PyVal := fun _ => Except.ok goodConfig

/-- Parser returning the bad-color config for every path. -/
def cwParseBadColor : String → Except String PyVal := fun _ => Except.ok badColorConfig

/-- Parser returning the null-valued config for every path. -/
def cwParseNull : String → Except String PyVal := fun _ => Except.ok nullKeyConfig

/-- Parser failing with a parse-error message for every path. -/
def cwParseErr : String → Except String PyVal := fun _ => Except.error (r"boom")

/-! ### Generic helper lemmas about strings and lists -/

lemma str_eq_iff_data {a b : String} : a = b ↔ a.data = b.data := by
  constructor
  · intro h; rw [h]
  · intro h; cases a; cases b; exact congrArg String.mk h

lemma str_append_data (a b : String) : (a ++ b).data = a.data ++ b.data :=
  String.data_append a b

lemma append_overlap {l1 l2 t1 t2 : List Char} (h : l1 ++ t1 = l2 ++ t2) :
    l1 <+: l2 ∨ l2 <+: l1 := by
  rcases List.append_eq_append_iff.mp h with ⟨a, ha, _⟩ | ⟨c, hc, _⟩
  · exact Or.inl ⟨a, ha.symm⟩
  · exact Or.inr ⟨c, hc.symm⟩

lemma str_append_ne (a b x y : String) (h1 : ¬ a.data <+: b.data)
    (h2 : ¬ b.data <+: a.data) : a ++ x ≠ b ++ y := by
  intro he
  rw [str_eq_iff_data, str_append_data, str_append_data] at he
  rcases append_overlap he with h | h
  · exact h1 h
  · exact h2 h

lemma str_append_left_cancel {a x y : String} (h : a ++ x = a ++ y) : x = y := by
  rw [str_eq_iff_data, str_append_data, str_append_data] at h
  exact str_eq_iff_data.mpr (List.append_cancel_left h)

lemma isPrefixOf_append_det (b a t : List Char) (h : b.length ≤ a.length) :
    List.isPrefixOf b (a ++ t) = List.isPrefixOf b a := by
  by_cases hp : b <+: a
  · rw [List.isPrefixOf_iff_prefix.mpr hp,
      List.isPrefixOf_iff_prefix.mpr (hp.trans (List.prefix_append a t))]
  · have h2 : ¬ b <+: a ++ t := by
      intro hc
      apply hp
      have hb : b = (a ++ t).take b.length := List.prefix_iff_eq_take.mp hc
      rw [List.take_append_of_le_length h] at hb
      exact hb ▸ List.take_prefix b.length a
    rw [Bool.eq_iff_iff]
    simp only [List.isPrefixOf_iff_prefix]
    exact iff_of_false h2 hp

lemma isPrefixOf_cons_head_ne {c : Char} {bs m : List Char}
    (h : m.head? ≠ some c) : List.isPrefixOf (c :: bs) m = false := by
  cases m with
  | nil => rfl
  | cons d ms =>
    have hne : (c == d) = false := by
      simp only [List.head?_cons, ne_eq] at h
      simp only [beq_eq_false_iff_ne, ne_eq]
      intro he; exact h (by rw [he])
    simp [List.isPrefixOf, hne]

lemma dropWhile_headq {p : Char → Bool} : ∀ (l : List Char) (c : Char),
    (l.dropWhile p).head? = some c → p c = false := by
  intro l
  induction l with
  | nil => intro c h; simp [List.dropWhile] at h
  | cons a as ih =>
    intro c h
    by_cases hp : p a
    · rw [List.dropWhile_cons, if_pos hp] at h
      exact ih c h
    · rw [List.dropWhile_cons, if_neg hp] at h
      simp only [List.head?_cons, Option.some.injEq] at h
      rw [← h]
      exact Bool.not_eq_true (p a) ▸ hp

lemma pyStrip_getLast_not_space (s : String) (c : Char)
    (h : (pyStrip s).data.getLast? = some c) : isSpaceChar c = false := by
  have hd : (pyStrip s).data
      = ((s.data.dropWhile isSpaceChar).reverse.dropWhile isSpaceChar).reverse := rfl
  rw [hd, List.getLast?_reverse] at h
  exact dropWhile_headq _ c h

lemma pyStrip_eq_nil_iff (s : String) :
    pyStrip s = (r"") ↔ s.data.all isSpaceChar = true := by
  rw [str_eq_iff_data]
  have hd : (pyStrip s).data
      = ((s.data.dropWhile isSpaceChar).reverse.dropWhile isSpaceChar).reverse := rfl
  have he : (r"").data = ([] : List Char) := rfl
  rw [hd, he, List.reverse_eq_nil_iff, List.dropWhile_eq_nil_iff, List.all_eq_true]
  constructor
  · intro h x hx
    rw [← List.takeWhile_append_dropWhile isSpaceChar s.data] at hx
    rcases List.mem_append.mp hx with hx | hx
    · exact List.mem_takeWhile_imp hx
    · exact h x (List.mem_reverse.mpr hx)
  · intro h x hx
    exact h x (List.dropWhile_sublist isSpaceChar |>.subset (List.mem_reverse.mp hx))

lemma hexMatch_pyStrip (s : String) :
    HEX_COLOR_RE_match (pyStrip s) = specHexColor (pyStrip s) := by
  unfold HEX_COLOR_RE_match specHexColor
  cases hl : (pyStrip s).data with
  | nil => rfl
  | cons c rest =>
    cases rest with
    | nil => simp [hexColorBody]
    | cons r rs =>
      have hlast : ((r :: rs).getLast? == some '\n') = false := by
        cases hg : (r :: rs).getLast? with
        | none => simp at hg
        | some d =>
          have hds : isSpaceChar d = false := by
            apply pyStrip_getLast_not_space s
            rw [hl, List.getLast?_cons_cons, hg]
          have hne : d ≠ '\n' := by
            intro he; rw [he] at hds; simp [isSpaceChar] at hds
          simp [hne]
      simp [hlast, hexColorBody, Bool.and_assoc]

lemma fmtEnv_json (env : String) : fmtEnv (r"{env}.json") env = env ++ (r".json") := by
  cases env with
  | mk l => rfl

/-! ### Structure of the issue lists -/

lemma pyIsNone_true_iff {v : PyVal} : pyIsNone v = true ↔ v = PyVal.none := by
  cases v <;> simp [pyIsNone]

lemma check_json_unfold {f : String → Bool} {p : String → Except String PyVal}
    {root env : String} {chk : Bool} {data : PyVal}
    (hf : f (osJoin root (env ++ (r".json"))) = true)
    (hp : p (osJoin root (env ++ (r".json"))) = Except.ok data) :
    check_json f p root env chk =
      keyIssues data ++ colorIssues data ++ logoIssues f root env chk data := by
  unfold check_json
  simp [hf, hp]

lemma mem_keyIssue {data : PyVal} {p m : String} (h : m ∈ keyIssue data p) :
    (m = mkMissingMsg p ∧ pyIsNone (get_by_path data p) = true) ∨
    (m = mkEmptyMsg p ∧ pyIsNone (get_by_path data p) = false ∧
       is_non_empty_value (get_by_path data p) = false) := by
  unfold keyIssue at h
  by_cases h1 : pyIsNone (get_by_path data p)
  · simp only [h1, if_pos, List.mem_singleton] at h
    exact Or.inl ⟨h, h1⟩
  · rw [if_neg h1] at h
    by_cases h2 : is_non_empty_value (get_by_path data p)
    · simp [h2] at h
    · simp only [Bool.not_eq_true] at h1 h2
      simp only [h2, Bool.not_false, if_pos, List.mem_singleton] at h
      exact Or.inr ⟨h, h1, h2⟩

lemma mem_keyIssues {data : PyVal} {m : String} (h : m ∈ keyIssues data) :
    ∃ p ∈ REQUIRED_JSON_PATHS,
      (m = mkMissingMsg p ∧ pyIsNone (get_by_path data p) = true) ∨
      (m = mkEmptyMsg p ∧ pyIsNone (get_by_path data p) = false ∧
         is_non_empty_value (get_by_path data p) = false) := by
  rcases List.mem_flatMap.mp h with ⟨p, hp, hm⟩
  exact ⟨p, hp, mem_keyIssue hm⟩

lemma colorMsg_split (field s : String) :
    colorMsg field s = (r"Invalid color ") ++ (field ++ ((r" (expected #RRGGBB): ") ++ pyReprStr s)) := by
  unfold colorMsg
  rw [String.append_assoc, String.append_assoc]

lemma mem_colorIssue {data : PyVal} {field m : String} (h : m ∈ colorIssue data field) :
    ∃ s, m = colorMsg field s ∧ get_by_path data field = PyVal.str s ∧
      HEX_COLOR_RE_match (pyStrip s) = false := by
  unfold colorIssue at h
  cases hg : get_by_path data field with
  | str s =>
      rw [hg] at h
      by_cases hx : HEX_COLOR_RE_match (pyStrip s)
      · simp [hx] at h
      · simp only [Bool.not_eq_true] at hx
        simp only [hx, Bool.false_eq_true, if_false, List.mem_singleton] at h
        exact ⟨s, h, rfl, hx⟩
  | none => rw [hg] at h; simp at h
  | bool b => rw [hg] at h; simp at h
  | num n => rw [hg] at h; simp at h
  | list l => rw [hg] at h; simp at h
  | dict d => rw [hg] at h; simp at h

lemma mem_colorIssues {data : PyVal} {m : String} (h : m ∈ colorIssues data) :
    ∃ field s, (field = (r"branding.primaryColor") ∨ field = (r"branding.accentColor")) ∧
      m = colorMsg field s := by
  rcases List.mem_append.mp h with h | h
  · rcases mem_colorIssue h with ⟨s, hm, _, _⟩
    exact ⟨_, s, Or.inl rfl, hm⟩
  · rcases mem_colorIssue h with ⟨s, hm, _, _⟩
    exact ⟨_, s, Or.inr rfl, hm⟩

lemma mem_logoIssue {f : String → Bool} {root env : String} {data : PyVal}
    {key m : String} (h : m ∈ logoIssue f root env data key) :
    ∃ rest, m = key ++ rest := by
  unfold logoIssue at h
  cases hg : get_by_path data key with
  | str s =>
      rw [hg] at h
      by_cases h1 : (pyStrip s == (r"")) = true
      · simp [h1] at h
      · rw [Bool.not_eq_true] at h1
        simp only [h1, Bool.false_eq_true, if_false] at h
        by_cases h2 : f (osJoin root ((r"asset/") ++ env ++ ((r"/images/")) ++ pyStrip s)) = true
        · simp [h2] at h
        · rw [Bool.not_eq_true] at h2
          simp only [h2, Bool.false_eq_true, if_false, List.mem_singleton] at h
          refine ⟨(r" points to ") ++ (pyReprStr s ++ ((r", but missing file at: ") ++
            ((r"asset/") ++ env ++ (r"/images/") ++ pyStrip s))), ?_⟩
          rw [h, String.append_assoc, String.append_assoc, String.append_assoc]
  | none => rw [hg] at h; simp at h
  | bool b => rw [hg] at h; simp at h
  | num n => rw [hg] at h; simp at h
  | list l => rw [hg] at h; simp at h
  | dict d => rw [hg] at h; simp at h

lemma mem_logoIssues {f : String → Bool} {root env : String} {chk : Bool}
    {data : PyVal} {m : String} (h : m ∈ logoIssues f root env chk data) :
    ∃ key rest, (key = (r"branding.logoUrl") ∨ key = (r"branding.logoDarkUrl")) ∧
      m = key ++ rest := by
  unfold logoIssues at h
  cases chk with
  | false => simp at h
  | true =>
      simp only [if_pos] at h
      rcases List.mem_append.mp h with h | h
      · rcases mem_logoIssue h with ⟨rest, hm⟩
        exact ⟨_, rest, Or.inl rfl, hm⟩
      · rcases mem_logoIssue h with ⟨rest, hm⟩
        exact ⟨_, rest, Or.inr rfl, hm⟩

/-! ### Distinguishing the issue messages -/

lemma mkMissingMsg_inj {p q : String} (h : mkMissingMsg p = mkMissingMsg q) : p = q :=
  str_append_left_cancel h

lemma mkEmptyMsg_inj {p q : String} (h : mkEmptyMsg p = mkEmptyMsg q) : p = q :=
  str_append_left_cancel h

lemma missing_ne_empty (p q : String) : mkMissingMsg p ≠ mkEmptyMsg q :=
  str_append_ne (r"Missing key: ") (r"Empty value: ") p q (by decide) (by decide)

lemma colorMsg_ne_missing (field s P : String) : colorMsg field s ≠ mkMissingMsg P := by
  rw [colorMsg_split]
  exact str_append_ne (r"Invalid color ") (r"Missing key: ") _ P (by decide) (by decide)

lemma colorMsg_ne_empty (field s P : String) : colorMsg field s ≠ mkEmptyMsg P := by
  rw [colorMsg_split]
  exact str_append_ne (r"Invalid color ") (r"Empty value: ") _ P (by decide) (by decide)

lemma logo_ne_missing {key m P : String}
    (hk : key = (r"branding.logoUrl") ∨ key = (r"branding.logoDarkUrl"))
    (hm : ∃ rest, m = key ++ rest) : m ≠ mkMissingMsg P := by
  rcases hm with ⟨rest, rfl⟩
  rcases hk with rfl | rfl
  · exact str_append_ne (r"branding.logoUrl") (r"Missing key: ") rest P (by decide) (by decide)
  · exact str_append_ne (r"branding.logoDarkUrl") (r"Missing key: ") rest P (by decide) (by decide)

lemma logo_ne_empty {key m P : String}
    (hk : key = (r"branding.logoUrl") ∨ key = (r"branding.logoDarkUrl"))
    (hm : ∃ rest, m = key ++ rest) : m ≠ mkEmptyMsg P := by
  rcases hm with ⟨rest, rfl⟩
  rcases hk with rfl | rfl
  · exact str_append_ne (r"branding.logoUrl") (r"Empty value: ") rest P (by decide) (by decide)
  · exact str_append_ne (r"branding.logoDarkUrl") (r"Empty value: ") rest P (by decide) (by decide)

/-! ### Counting the key issues -/

lemma keyIssue_missing_self {data : PyVal} {P : String}
    (h : pyIsNone (get_by_path data P) = true) :
    keyIssue data P = [mkMissingMsg P] := by
  unfold keyIssue
  simp [h]

lemma count_keyIssue_ne {data : PyVal} {q P : String} (hne : q ≠ P) :
    (keyIssue data q).count (mkMissingMsg P) = 0 := by
  rw [List.count_eq_zero]
  intro hm
  rcases mem_keyIssue hm with ⟨he, _⟩ | ⟨he, _, _⟩
  · exact hne (mkMissingMsg_inj he).symm
  · exact missing_ne_empty P q he

lemma count_keyIssues_notmem (data : PyVal) (P : String) :
    ∀ l : List String, P ∉ l → (l.flatMap (keyIssue data)).count (mkMissingMsg P) = 0 := by
  intro l hl
  rw [List.count_eq_zero]
  intro hm
  rcases List.mem_flatMap.mp hm with ⟨q, hq, hmq⟩
  have hne : q ≠ P := fun he => hl (he ▸ hq)
  have hz := @count_keyIssue_ne data q P hne
  rw [List.count_eq_zero] at hz
  exact hz hmq

lemma count_keyIssues_aux (data : PyVal) (P : String)
    (h : pyIsNone (get_by_path data P) = true) :
    ∀ l : List String, l.Nodup → P ∈ l →
      (l.flatMap (keyIssue data)).count (mkMissingMsg P) = 1 := by
  intro l
  induction l with
  | nil => intro _ hP; simp at hP
  | cons q l ih =>
    intro hnd hP
    rw [List.flatMap_cons, List.count_append]
    rcases List.mem_cons.mp hP with rfl | hmem
    · rw [keyIssue_missing_self h]
      have hnot : P ∉ l := (List.nodup_cons.mp hnd).1
      rw [count_keyIssues_notmem data P l hnot]
      simp
    · have hqP : q ≠ P := by
        rintro rfl
        exact (List.nodup_cons.mp hnd).1 hmem
      rw [count_keyIssue_ne hqP, ih (List.nodup_cons.mp hnd).2 hmem]

lemma count_colorIssues_missing (data : PyVal) (P : String) :
    (colorIssues data).count (mkMissingMsg P) = 0 := by
  rw [List.count_eq_zero]
  intro hm
  rcases mem_colorIssues hm with ⟨field, s, _, he⟩
  exact colorMsg_ne_missing field s P (he ▸ rfl)

lemma count_logoIssues_missing (f : String → Bool) (root env : String) (chk : Bool)
    (data : PyVal) (P : String) :
    (logoIssues f root env chk data).count (mkMissingMsg P) = 0 := by
  rw [List.count_eq_zero]
  intro hm
  rcases mem_logoIssues hm with ⟨key, rest, hk, he⟩
  exact logo_ne_missing hk ⟨rest, he⟩ rfl

/-! ### Recognising color issues among the other messages -/

lemma colorIssueFor_missing (field P : String) :
    colorIssueFor field (mkMissingMsg P) = false := by
  unfold colorIssueFor
  have h1 : ((r"Invalid color ") ++ field).data
      = 'I' :: ((r"nvalid color ").data ++ field.data) := by
    rw [str_append_data]; rfl
  have h2 : (mkMissingMsg P).data
      = 'M' :: ((r"issing key: ").data ++ P.data) := by
    unfold mkMissingMsg; rw [str_append_data]; rfl
  rw [h1, h2]
  apply isPrefixOf_cons_head_ne
  simp

lemma colorIssueFor_empty (field P : String) :
    colorIssueFor field (mkEmptyMsg P) = false := by
  unfold colorIssueFor
  have h1 : ((r"Invalid color ") ++ field).data
      = 'I' :: ((r"nvalid color ").data ++ field.data) := by
    rw [str_append_data]; rfl
  have h2 : (mkEmptyMsg P).data
      = 'E' :: ((r"mpty value: ").data ++ P.data) := by
    unfold mkEmptyMsg; rw [str_append_data]; rfl
  rw [h1, h2]
  apply isPrefixOf_cons_head_ne
  simp

lemma colorIssueFor_logo {field key m : String}
    (hk : key = (r"branding.logoUrl") ∨ key = (r"branding.logoDarkUrl"))
    (hm : ∃ rest, m = key ++ rest) : colorIssueFor field m = false := by
  rcases hm with ⟨rest, rfl⟩
  unfold colorIssueFor
  have h1 : ((r"Invalid color ") ++ field).data
      = 'I' :: ((r"nvalid color ").data ++ field.data) := by
    rw [str_append_data]; rfl
  rcases hk with rfl | rfl
  · have h2 : ((r"branding.logoUrl") ++ rest).data
        = 'b' :: ((r"randing.logoUrl").data ++ rest.data) := by
      rw [str_append_data]; rfl
    rw [h1, h2]
    apply isPrefixOf_cons_head_ne
    simp
  · have h2 : ((r"branding.logoDarkUrl") ++ rest).data
        = 'b' :: ((r"randing.logoDarkUrl").data ++ rest.data) := by
      rw [str_append_data]; rfl
    rw [h1, h2]
    apply isPrefixOf_cons_head_ne
    simp

lemma colorIssueFor_self_primary (s : String) :
    colorIssueFor (r"branding.primaryColor") (colorMsg (r"branding.primaryColor") s) = true := by
  unfold colorIssueFor
  have he : colorMsg (r"branding.primaryColor") s
      = fixedColor (r"branding.primaryColor") ++ pyReprStr s := rfl
  rw [he, str_append_data, str_append_data, isPrefixOf_append_det _ _ _ (by decide)]
  decide

lemma colorIssueFor_self_accent (s : String) :
    colorIssueFor (r"branding.accentColor") (colorMsg (r"branding.accentColor") s) = true := by
  unfold colorIssueFor
  have he : colorMsg (r"branding.accentColor") s
      = fixedColor (r"branding.accentColor") ++ pyReprStr s := rfl
  rw [he, str_append_data, str_append_data, isPrefixOf_append_det _ _ _ (by decide)]
  decide

lemma colorIssueFor_cross_pa (s : String) :
    colorIssueFor (r"branding.primaryColor") (colorMsg (r"branding.accentColor") s) = false := by
  unfold colorIssueFor
  have he : colorMsg (r"branding.accentColor") s
      = fixedColor (r"branding.accentColor") ++ pyReprStr s := rfl
  rw [he, str_append_data, str_append_data, isPrefixOf_append_det _ _ _ (by decide)]
  decide

lemma colorIssueFor_cross_ap (s : String) :
    colorIssueFor (r"branding.accentColor") (colorMsg (r"branding.primaryColor") s) = false := by
  unfold colorIssueFor
  have he : colorMsg (r"branding.primaryColor") s
      = fixedColor (r"branding.primaryColor") ++ pyReprStr s := rfl
  rw [he, str_append_data, str_append_data, isPrefixOf_append_det _ _ _ (by decide)]
  decide

lemma filter_keyIssues_color (field : String) (data : PyVal) :
    (keyIssues data).filter (colorIssueFor field) = [] := by
  rw [List.filter_eq_nil_iff]
  intro m hm
  rcases mem_keyIssues hm with ⟨p, _, ⟨he, _⟩ | ⟨he, _, _⟩⟩
  · rw [he, colorIssueFor_missing]; simp
  · rw [he, colorIssueFor_empty]; simp

lemma filter_logoIssues_color (field : String) (f : String → Bool) (root env : String)
    (chk : Bool) (data : PyVal) :
    (logoIssues f root env chk data).filter (colorIssueFor field) = [] := by
  rw [List.filter_eq_nil_iff]
  intro m hm
  rcases mem_logoIssues hm with ⟨key, rest, hk, he⟩
  rw [colorIssueFor_logo hk ⟨rest, he⟩]
  simp

lemma colorIssue_eq_spec (data : PyVal) (field : String) :
    colorIssue data field = specColorIssue field (get_by_path data field) := by
  unfold colorIssue specColorIssue
  cases get_by_path data field <;> simp [hexMatch_pyStrip]

/-! ### Emptiness of the issue lists for a fully valid config -/

lemma pyIsNone_false_of_nonempty {v : PyVal} (h : is_non_empty_value v = true) :
    pyIsNone v = false := by
  cases v <;> simp_all [pyIsNone, is_non_empty_value]

lemma keyIssue_nil {data : PyVal} {q : String}
    (h : is_non_empty_value (get_by_path data q) = true) : keyIssue data q = [] := by
  unfold keyIssue
  simp [pyIsNone_false_of_nonempty h, h]

lemma colorIssue_nil {data : PyVal} {field : String}
    (h : colorValueOK (get_by_path data field) = true) : colorIssue data field = [] := by
  cases hg : get_by_path data field with
  | str s =>
      rw [hg] at h
      simp only [colorValueOK] at h
      simp [colorIssue, hg, hexMatch_pyStrip, h]
  | none => simp [colorIssue, hg]
  | bool b => simp [colorIssue, hg]
  | num n => simp [colorIssue, hg]
  | list l => simp [colorIssue, hg]
  | dict d => simp [colorIssue, hg]

/-! ### The main loop -/

lemma main_step_eq (f : String → Bool) (p : String → Except String PyVal)
    (root : String) (chk : Bool) (acc : List String × List String) (env : String) :
    main_step f p root chk acc env =
      if envPasses f p root chk env = true then (acc.1 ++ [okLine env], acc.2)
      else (acc.1, acc.2 ++ failBlock env (check_required_files f root env)
        (check_json f p root env chk)) := by
  unfold main_step envPasses
  by_cases h1 : (check_required_files f root env).isEmpty <;>
    by_cases h2 : (check_json f p root env chk).isEmpty <;>
      simp [h1, h2]

lemma failBlock_ne_nil (env : String) (mf ji : List String) :
    failBlock env mf ji ≠ [] := by
  unfold failBlock
  simp

/-! ### Claim theorems -/

/-- C5: a resolved value is classified as empty exactly when it is the
not-found sentinel (Python None), a string that is empty or consists
only of whitespace, or an empty list or empty mapping; every numeric or
boolean value is classified as present, including zero and false. -/
theorem spec_C5 (v : PyVal) :
    (is_non_empty_value v = false ↔
      (v = PyVal.none ∨ (∃ s, v = PyVal.str s ∧ s.data.all isSpaceChar = true) ∨
       v = PyVal.list [] ∨ v = PyVal.dict []))
    ∧ (∀ n : Int, is_non_empty_value (PyVal.num n) = true)
    ∧ (∀ b : Bool, is_non_empty_value (PyVal.bool b) = true) := by
  refine ⟨?_, fun n => rfl, fun b => rfl⟩
  cases v with
  | none => simp [is_non_empty_value]
  | bool b => simp [is_non_empty_value]
  | num n => simp [is_non_empty_value]
  | str s =>
      simp only [is_non_empty_value, Bool.not_eq_false, beq_iff_eq]
      simp
      rw [pyStrip_eq_nil_iff, List.all_eq_true]
  | list l => simp [is_non_empty_value, List.length_eq_zero]
  | dict d => simp [is_non_empty_value, List.length_eq_zero]

/-- C6: each template of the fixed required-file list, with the
environment substituted and joined to the repo root, contributes exactly
its substituted relative path to the missing-files list when no file
exists there (and nothing when one does); the missing list is an
order-preserving sublist of the substituted fixed list; a missing file
makes the environment fail. -/
theorem spec_C6 (f : String → Bool) (p : String → Except String PyVal)
    (root env : String) (chk : Bool) (rel : String)
    (hrel : rel ∈ REQUIRED_FILES_BY_ENV) :
    (fmtEnv rel env ∈ check_required_files f root env ↔
       f (osJoin root (fmtEnv rel env)) = false)
    ∧ List.Sublist (check_required_files f root env)
        (REQUIRED_FILES_BY_ENV.map (fun t => fmtEnv t env))
    ∧ (f (osJoin root (fmtEnv rel env)) = false →
        envPasses f p root chk env = false) := by
  have hmemiff : fmtEnv rel env ∈ check_required_files f root env ↔
      f (osJoin root (fmtEnv rel env)) = false := by
    unfold check_required_files
    rw [List.mem_filter]
    constructor
    · intro h
      have := h.2
      simpa using this
    · intro h
      exact ⟨List.mem_map_of_mem _ hrel, by simp [h]⟩
  refine ⟨hmemiff, List.filter_sublist _, ?_⟩
  intro h
  have hmem : fmtEnv rel env ∈ check_required_files f root env := hmemiff.mpr h
  have hne : check_required_files f root env ≠ [] := List.ne_nil_of_mem hmem
  have h0 : (check_required_files f root env).isEmpty = false := by
    cases hc : check_required_files f root env with
    | nil => exact absurd hc hne
    | cons a l => rfl
  unfold envPasses
  rw [h0]
  rfl

theorem spec_C6_witness :
    ((fmtEnv (r"{env}.json") (r"production") ∈ check_required_files cwFsNone cwRoot (r"production") ↔
        cwFsNone (osJoin cwRoot (fmtEnv (r"{env}.json") (r"production"))) = false)
     ∧ List.Sublist (check_required_files cwFsNone cwRoot (r"production"))
         (REQUIRED_FILES_BY_ENV.map (fun t => fmtEnv t (r"production")))
     ∧ (cwFsNone (osJoin cwRoot (fmtEnv (r"{env}.json") (r"production"))) = false →
         envPasses cwFsNone cwParseGood cwRoot false (r"production") = false)) :=
  spec_C6 cwFsNone cwParseGood cwRoot (r"production") false (r"{env}.json") (by decide)

/-- C7: a missing config file yields exactly the single issue
`Missing JSON: {env}.json` and no further JSON checks; a file that fails
to parse yields exactly the single issue reporting the parse error and
no further JSON checks. -/
theorem spec_C7 (f : String → Bool) (p : String → Except String PyVal)
    (root env : String) (chk : Bool) :
    (f (osJoin root (env ++ (r".json"))) = false →
       check_json f p root env chk = [(r"Missing JSON: ") ++ (env ++ (r".json"))])
    ∧ (∀ ex, f (osJoin root (env ++ (r".json"))) = true →
       p (osJoin root (env ++ (r".json"))) = Except.error ex →
       check_json f p root env chk
         = [(r"Invalid JSON (") ++ (env ++ (r".json")) ++ ((r"): ")) ++ ex]) := by
  constructor
  · intro h
    unfold check_json
    simp [h]
  · intro ex hf hp
    unfold check_json
    simp [hf, hp]

theorem spec_C7_witness :
    check_json cwFsNone cwParseGood cwRoot (r"production") false
        = [r"Missing JSON: production.json"]
    ∧ check_json cwFsAll cwParseErr cwRoot (r"production") false
        = [r"Invalid JSON (production.json): boom"] :=
  ⟨((spec_C7 cwFsNone cwParseGood cwRoot (r"production") false).1 rfl).trans (by decide),
   ((spec_C7 cwFsAll cwParseErr cwRoot (r"production") false).2 (r"boom") rfl rfl).trans (by decide)⟩

lemma get_go_lookup : ∀ (segs : List String) (cur : PyVal),
    get_by_path_go cur segs =
      (match lookupSegs cur segs with
       | some v => v
       | Option.none => PyVal.none) := by
  intro segs
  induction segs with
  | nil => intro cur; cases cur <;> rfl
  | cons seg rest ih =>
    intro cur
    cases cur with
    | dict d =>
        cases hd : dictGet d seg with
        | none => simp [get_by_path_go, lookupSegs, hd]
        | some v => simp [get_by_path_go, lookupSegs, hd, ih]
    | none => rfl
    | bool b => rfl
    | num n => rfl
    | str s => rfl
    | list l => rfl

/-- C8: the key-path resolver walks a dot-separated path through nested
mappings and returns the stored value, or the None sentinel as soon as a
segment is absent or the current value is not a mapping; being a total
function, it never raises on missing intermediate keys. -/
theorem spec_C8 (obj : PyVal) (dotted : String) :
    get_by_path obj dotted =
      (match lookupSegs obj (splitDot dotted) with
       | some v => v
       | Option.none => PyVal.none) :=
  get_go_lookup (splitDot dotted) obj

/-- C10: when {env}.json is missing, the environment report mentions it
twice: as the first entry of the missing-required-files list and as the
single Missing JSON issue. -/
theorem spec_C10 (f : String → Bool) (p : String → Except String PyVal)
    (root env : String) (chk : Bool)
    (h : f (osJoin root (env ++ (r".json"))) = false) :
    (check_required_files f root env).head? = some (env ++ (r".json"))
    ∧ check_json f p root env chk = [(r"Missing JSON: ") ++ (env ++ (r".json"))] := by
  constructor
  · unfold check_required_files
    simp only [REQUIRED_FILES_BY_ENV, List.map_cons]
    rw [fmtEnv_json env, List.filter_cons_of_pos (by simp [h])]
    rfl
  · unfold check_json
    simp [h]

theorem spec_C10_witness :
    (check_required_files cwFsNone cwRoot (r"staging")).head? = some (r"staging.json")
    ∧ check_json cwFsNone cwParseGood cwRoot (r"staging") false
        = [r"Missing JSON: staging.json"] := by
  have h := spec_C10 cwFsNone cwParseGood cwRoot (r"staging") false rfl
  exact ⟨h.1.trans (by decide), h.2.trans (by decide)⟩

lemma filter_colorIssue_self_p (data : PyVal) :
    (colorIssue data (r"branding.primaryColor")).filter
        (colorIssueFor (r"branding.primaryColor"))
      = colorIssue data (r"branding.primaryColor") := by
  rw [List.filter_eq_self]
  intro m hm
  rcases mem_colorIssue hm with ⟨s, rfl, _, _⟩
  exact colorIssueFor_self_primary s

lemma filter_colorIssue_self_a (data : PyVal) :
    (colorIssue data (r"branding.accentColor")).filter
        (colorIssueFor (r"branding.accentColor"))
      = colorIssue data (r"branding.accentColor") := by
  rw [List.filter_eq_self]
  intro m hm
  rcases mem_colorIssue hm with ⟨s, rfl, _, _⟩
  exact colorIssueFor_self_accent s

lemma filter_colorIssue_cross_pa (data : PyVal) :
    (colorIssue data (r"branding.accentColor")).filter
        (colorIssueFor (r"branding.primaryColor")) = [] := by
  rw [List.filter_eq_nil_iff]
  intro m hm
  rcases mem_colorIssue hm with ⟨s, rfl, _, _⟩
  rw [colorIssueFor_cross_pa]
  simp

lemma filter_colorIssue_cross_ap (data : PyVal) :
    (colorIssue data (r"branding.primaryColor")).filter
        (colorIssueFor (r"branding.accentColor")) = [] := by
  rw [List.filter_eq_nil_iff]
  intro m hm
  rcases mem_colorIssue hm with ⟨s, rfl, _, _⟩
  rw [colorIssueFor_cross_ap]
  simp

/-- C1: one environment is reported OK (its success line is appended to
stdout and nothing to the failure report) exactly when its missing-files
list and its JSON-issues list are both empty; and for a config whose
required keys all resolve to present non-empty values, whose color
fields are valid, with every required file present and no logo issues,
both lists are indeed empty. -/
theorem spec_C1 (f : String → Bool) (p : String → Except String PyVal)
    (root : String) (chk : Bool) (env : String) (acc : List String × List String)
    (data : PyVal) :
    (main_step f p root chk acc env = (acc.1 ++ [okLine env], acc.2) ↔
       (check_required_files f root env = [] ∧ check_json f p root env chk = []))
    ∧ ((∀ rel ∈ REQUIRED_FILES_BY_ENV, f (osJoin root (fmtEnv rel env)) = true) →
       p (osJoin root (env ++ (r".json"))) = Except.ok data →
       (∀ q ∈ REQUIRED_JSON_PATHS, is_non_empty_value (get_by_path data q) = true) →
       colorValueOK (get_by_path data (r"branding.primaryColor")) = true →
       colorValueOK (get_by_path data (r"branding.accentColor")) = true →
       logoIssues f root env chk data = [] →
       check_required_files f root env = [] ∧ check_json f p root env chk = []) := by
  constructor
  · rw [main_step_eq]
    by_cases hpass : envPasses f p root chk env = true
    · rw [if_pos hpass]
      unfold envPasses at hpass
      rw [Bool.and_eq_true, List.isEmpty_iff, List.isEmpty_iff] at hpass
      exact iff_of_true rfl hpass
    · rw [if_neg hpass]
      apply iff_of_false
      · intro he
        have h1 := congrArg Prod.fst he
        simp at h1
      · rintro ⟨h1, h2⟩
        apply hpass
        unfold envPasses
        rw [h1, h2]
        rfl
  · intro hfiles hparse hkeys hc1 hc2 hlogo
    have hcrf : check_required_files f root env = [] := by
      unfold check_required_files
      rw [List.filter_eq_nil_iff]
      intro a ha
      rcases List.mem_map.mp ha with ⟨rel, hrel, rfl⟩
      simp [hfiles rel hrel]
    have hjfile : f (osJoin root (env ++ (r".json"))) = true := by
      have h0 := hfiles (r"{env}.json") (by decide)
      rwa [fmtEnv_json env] at h0
    have hkeyn : keyIssues data = [] := by
      unfold keyIssues
      rw [List.flatMap_eq_nil_iff]
      intro q hq
      exact keyIssue_nil (hkeys q hq)
    have hcoln : colorIssues data = [] := by
      unfold colorIssues
      rw [colorIssue_nil hc1, colorIssue_nil hc2]
      rfl
    refine ⟨hcrf, ?_⟩
    rw [check_json_unfold hjfile hparse, hkeyn, hcoln, hlogo]
    rfl

theorem spec_C1_witness :
    check_required_files cwFsAll cwRoot (r"production") = []
    ∧ check_json cwFsAll cwParseGood cwRoot (r"production") false = [] :=
  (spec_C1 cwFsAll cwParseGood cwRoot false (r"production") ([], []) goodConfig).2
    (by decide) rfl (by decide) (by decide) (by decide) rfl

/-- C3: for each of the two color fields, the issues of the environment
that start with `Invalid color <field>` are exactly those demanded by
the spec: none when the value is a string whose trimmed form is # plus
6 hex digits, exactly one naming field and value for any other string,
and none for non-string values. -/
theorem spec_C3 (f : String → Bool) (p : String → Except String PyVal)
    (root env : String) (chk : Bool) (data : PyVal) (field : String)
    (hf : f (osJoin root (env ++ (r".json"))) = true)
    (hp : p (osJoin root (env ++ (r".json"))) = Except.ok data)
    (hfield : field = (r"branding.primaryColor") ∨ field = (r"branding.accentColor")) :
    (check_json f p root env chk).filter (colorIssueFor field)
      = specColorIssue field (get_by_path data field) := by
  rw [check_json_unfold hf hp, List.filter_append, List.filter_append,
    filter_keyIssues_color, filter_logoIssues_color]
  simp only [List.nil_append, List.append_nil]
  unfold colorIssues
  rw [List.filter_append]
  rcases hfield with rfl | rfl
  · rw [filter_colorIssue_self_p, filter_colorIssue_cross_pa, colorIssue_eq_spec]
    simp
  · rw [filter_colorIssue_self_a, filter_colorIssue_cross_ap, colorIssue_eq_spec]
    simp

theorem spec_C3_witness :
    (check_json cwFsAll cwParseBadColor cwRoot (r"production") false).filter
        (colorIssueFor (r"branding.primaryColor"))
      = [colorMsg (r"branding.primaryColor") (r"#ZZZZZZ")] :=
  (spec_C3 cwFsAll cwParseBadColor cwRoot (r"production") false badColorConfig
      (r"branding.primaryColor") rfl rfl (Or.inl rfl)).trans (by decide)

/-- C4: every required key path at which the config has no value
contributes exactly one `Missing key` issue, independently of the other
paths. -/
theorem spec_C4 (f : String → Bool) (p : String → Except String PyVal)
    (root env : String) (chk : Bool) (data : PyVal) (P : String)
    (hf : f (osJoin root (env ++ (r".json"))) = true)
    (hp : p (osJoin root (env ++ (r".json"))) = Except.ok data)
    (hP : P ∈ REQUIRED_JSON_PATHS)
    (hnone : pyIsNone (get_by_path data P) = true) :
    (check_json f p root env chk).count (mkMissingMsg P) = 1 := by
  rw [check_json_unfold hf hp, List.count_append, List.count_append,
    count_colorIssues_missing, count_logoIssues_missing]
  have hnd : REQUIRED_JSON_PATHS.Nodup := by decide
  unfold keyIssues
  rw [count_keyIssues_aux data P hnone REQUIRED_JSON_PATHS hnd hP]

theorem spec_C4_witness :
    (check_json cwFsAll cwParseBadColor cwRoot (r"production") false).count
        (mkMissingMsg (r"identifiers.androidBundleId")) = 1 :=
  spec_C4 cwFsAll cwParseBadColor cwRoot (r"production") false badColorConfig
    (r"identifiers.androidBundleId") rfl rfl (by decide) rfl

/-- C9: a required key path whose stored value is JSON null is reported
as `Missing key`, never as `Empty value`, because the stored null equals
the not-found sentinel of the resolver. -/
theorem spec_C9 (f : String → Bool) (p : String → Except String PyVal)
    (root env : String) (chk : Bool) (data : PyVal) (P : String)
    (hf : f (osJoin root (env ++ (r".json"))) = true)
    (hp : p (osJoin root (env ++ (r".json"))) = Except.ok data)
    (hP : P ∈ REQUIRED_JSON_PATHS)
    (hnull : lookupSegs data (splitDot P) = some PyVal.none) :
    mkMissingMsg P ∈ check_json f p root env chk
    ∧ mkEmptyMsg P ∉ check_json f p root env chk := by
  have hget : get_by_path data P = PyVal.none := by
    unfold get_by_path
    rw [get_go_lookup, hnull]
  have hnone : pyIsNone (get_by_path data P) = true := by rw [hget]; rfl
  rw [check_json_unfold hf hp]
  constructor
  · apply List.mem_append.mpr
    left
    apply List.mem_append.mpr
    left
    unfold keyIssues
    apply List.mem_flatMap.mpr
    refine ⟨P, hP, ?_⟩
    rw [keyIssue_missing_self hnone]
    exact List.mem_singleton.mpr rfl
  · intro hmem
    rcases List.mem_append.mp hmem with hmem | hmem
    · rcases List.mem_append.mp hmem with hmem | hmem
      · rcases mem_keyIssues hmem with ⟨q, hq, ⟨he, _⟩ | ⟨he, hq2, _⟩⟩
        · exact missing_ne_empty q P he.symm
        · have hPq : P = q := mkEmptyMsg_inj he
          rw [← hPq, hnone] at hq2
          exact Bool.noConfusion hq2
      · rcases mem_colorIssues hmem with ⟨field, s, _, he⟩
        exact colorMsg_ne_empty field s P he.symm
    · rcases mem_logoIssues hmem with ⟨key, rest, hk, he⟩
      exact logo_ne_empty hk ⟨rest, he⟩ rfl

theorem spec_C9_witness :
    mkMissingMsg (r"branding.appName")
        ∈ check_json cwFsAll cwParseNull cwRoot (r"production") false
    ∧ mkEmptyMsg (r"branding.appName")
        ∉ check_json cwFsAll cwParseNull cwRoot (r"production") false :=
  spec_C9 cwFsAll cwParseNull cwRoot (r"production") false nullKeyConfig
    (r"branding.appName") rfl rfl (by decide) rfl

lemma failBlock_isEmpty (env : String) (mf ji : List String) :
    (failBlock env mf ji).isEmpty = false := rfl

/-- C2: the exit code is 0 exactly when every selected environment
passes and 1 exactly when some selected environment has missing files or
JSON issues; stdout carries the OK lines of the passing environments and
the error stream carries the failure blocks of the failing ones; in the
concrete both-environment scenario with production passing and staging
failing, the exit code is 1, stdout holds the production OK line and the
error stream holds only the staging failure block. -/
theorem spec_C2 (f : String → Bool) (p : String → Except String PyVal)
    (root : String) (choice : EnvChoice) (chk : Bool) :
    ((runMain f p root choice chk).exit_code = 0 ↔
       ∀ env ∈ selectedEnvs choice, envPasses f p root chk env = true)
    ∧ ((runMain f p root choice chk).exit_code = 1 ↔
       ∃ env ∈ selectedEnvs choice, envPasses f p root chk env = false)
    ∧ (runMain f p root choice chk).stdout_lines
        = ((selectedEnvs choice).filter (envPasses f p root chk)).map okLine
    ∧ (runMain f p root choice chk).stderr_lines
        = ((selectedEnvs choice).filter (fun env => !envPasses f p root chk env)).flatMap
            (fun env => failBlock env (check_required_files f root env)
              (check_json f p root env chk))
    ∧ ((runMain cwFsNoStaging cwParseGood cwRoot EnvChoice.both false).exit_code = 1
       ∧ (runMain cwFsNoStaging cwParseGood cwRoot EnvChoice.both false).stdout_lines
           = [okLine (r"production")]
       ∧ (runMain cwFsNoStaging cwParseGood cwRoot EnvChoice.both false).stderr_lines
           = failBlock (r"staging") [r"staging.json"] [r"Missing JSON: staging.json"]) := by
  have hgen : ((runMain f p root choice chk).exit_code = 0 ↔
       ∀ env ∈ selectedEnvs choice, envPasses f p root chk env = true)
    ∧ ((runMain f p root choice chk).exit_code = 1 ↔
       ∃ env ∈ selectedEnvs choice, envPasses f p root chk env = false)
    ∧ (runMain f p root choice chk).stdout_lines
        = ((selectedEnvs choice).filter (envPasses f p root chk)).map okLine
    ∧ (runMain f p root choice chk).stderr_lines
        = ((selectedEnvs choice).filter (fun env => !envPasses f p root chk env)).flatMap
            (fun env => failBlock env (check_required_files f root env)
              (check_json f p root env chk)) := by
    cases choice with
    | production =>
        by_cases h : envPasses f p root chk (r"production") = true
        · simp [runMain, selectedEnvs, main_step_eq, h]
        · rw [Bool.not_eq_true] at h
          simp [runMain, selectedEnvs, main_step_eq, h, failBlock_isEmpty]
    | staging =>
        by_cases h : envPasses f p root chk (r"staging") = true
        · simp [runMain, selectedEnvs, main_step_eq, h]
        · rw [Bool.not_eq_true] at h
          simp [runMain, selectedEnvs, main_step_eq, h, failBlock_isEmpty]
    | both =>
        by_cases h1 : envPasses f p root chk (r"production") = true <;>
          by_cases h2 : envPasses f p root chk (r"staging") = true
        · simp [runMain, selectedEnvs, main_step_eq, h1, h2]
        · rw [Bool.not_eq_true] at h2
          simp [runMain, selectedEnvs, main_step_eq, h1, h2, failBlock_isEmpty]
        · rw [Bool.not_eq_true] at h1
          simp [runMain, selectedEnvs, main_step_eq, h1, h2, failBlock_isEmpty]
        · rw [Bool.not_eq_true] at h1
          rw [Bool.not_eq_true] at h2
          simp [runMain, selectedEnvs, main_step_eq, h1, h2, failBlock_isEmpty]
          exact fun hc => absurd hc (failBlock_ne_nil _ _ _)
  exact ⟨hgen.1, hgen.2.1, hgen.2.2.1, hgen.2.2.2, rfl, rfl, rfl⟩
